import Mathlib

/-!
# Verification of `xhrless` (src/xhrless.js)

A shallow embedding of the core of `xhrless.js`: the `XHR` descriptor state,
its fluent configuration operations, the dispatch operation `send`, the single
observer slot driven by `onreadystatechange`, and the terminal-state
classification (`isStatusOK`, `isSuccessResponse`, `errorState`).

JavaScript runtime values that the code branches on by `typeof` or by
truthiness are modelled by the inductive `JSValue`; `null` and `undefined` are
distinct values, as in JavaScript.  A JavaScript object used as a string map
(`this.headers`, `this.data`) is modelled by an insertion-ordered association
list with unique keys: property assignment updates the value in place when the
key exists and appends otherwise, `delete` removes the key, and `for..in`
iterates in list order, matching JavaScript insertion-order semantics for
non-integer string keys.

The transport (`this.xhr`, an `XMLHttpRequest`) is a collaborator: its fields
(`readyState`, `status`, `responseType`, `response`, `timeout`) are state the
environment may set, and the calls `send` makes on it (`open`,
`setRequestHeader`, `send`) are recorded as a trace of `TransportOp`s.
`XMLHttpRequest.DONE` is the constant 4.
-/

/-- A JavaScript runtime value, as far as `xhrless.js` inspects one:
`typeof` distinctions (string / function / other) and truthiness. `vObj`
and `vFun` are opaque references identified by a tag. -/
inductive JSValue where
  | vUndefined
  | vNull
  | vBool (b : Bool)
  | vNum (n : Int)
  | vStr (s : String)
  | vObj (id : Nat)
  | vFun (id : Nat)
  deriving DecidableEq

/-- JavaScript truthiness: `undefined`, `null`, `false`, `0` and `""` are
falsy; objects and functions are truthy. -/
def JSValue.truthy : JSValue → Bool
  | .vUndefined => false
  | .vNull => false
  | .vBool b => b
  | .vNum n => decide (n ≠ 0)
  | .vStr s => decide (s ≠ "")
  | .vObj _ => true
  | .vFun _ => true

/-- `typeof v == 'function'`. -/
def JSValue.isFunction : JSValue → Bool
  | .vFun _ => true
  | _ => false

/-- `typeof v == 'string'`. -/
def JSValue.isString : JSValue → Bool
  | .vStr _ => true
  | _ => false

/-- Read a JavaScript string-keyed object: first binding of the key, if any. -/
def getObj : List (String × String) → String → Option String
  | [], _ => none
  | (a, w) :: t, k => if a = k then some w else getObj t k

/-- JavaScript property assignment `obj[k] = v` on a string map: replace the
value in place when the key is present, append at the end otherwise
(insertion-order semantics). -/
def setObj : List (String × String) → String → String → List (String × String)
  | [], k, v => [(k, v)]
  | (a, w) :: t, k, v => if a = k then (k, v) :: t else (a, w) :: setObj t k v

/-- JavaScript `delete obj[k]`: remove the key. -/
def delObj : List (String × String) → String → List (String × String)
  | [], _ => []
  | (a, w) :: t, k => if a = k then delObj t k else (a, w) :: delObj t k

/-- The single `onreadystatechange` observer slot of the transport.  The
registrations `onChange`, `onReady`, `onSuccess` and `promise` all assign this
one slot (source comment, lines 293-294), so each overwrites the previous
registration. -/
inductive Observer where
  | unset
  | change (handler : JSValue)
  | ready (handler : JSValue)
  | success (successHandler errorHandler : JSValue)
  | future
  deriving DecidableEq

/-- The transport-visible state of `this.xhr` plus its observer slot. -/
structure XhrTransport where
  readyState : Nat
  status : Nat
  responseType : String
  response : JSValue
  timeout : Int
  observer : Observer
  deriving DecidableEq

/-- A fresh `new XMLHttpRequest()`: ready state UNSENT (0), status 0, default
response type `""`, no timeout, no observer. -/
def initTransport : XhrTransport :=
  { readyState := 0, status := 0, responseType := "", response := .vUndefined,
    timeout := 0, observer := .unset }

/-- The `XHR` instance state: the owned transport plus the stored request
configuration (source lines 146-155). -/
structure XHR where
  xhr : XhrTransport
  method : String
  url : String
  postData : JSValue
  userName : JSValue
  password : JSValue
  headers : List (String × String)
  data : List (String × JSValue)
  deriving DecidableEq

/-- Error code `ERR_NONE` (source line 164). -/
def ERR_NONE : Int := 0
/-- Error code `ERR_CONNECTION` (source line 165). -/
def ERR_CONNECTION : Int := 1
/-- Error code `ERR_HTTPSTATUS` (source line 166). -/
def ERR_HTTPSTATUS : Int := 2
/-- Error code `ERR_BODYTYPE` (source line 167). -/
def ERR_BODYTYPE : Int := 3

namespace XHR

/-- The constructor (source lines 141-156): `method = method || ''`,
`url = url || ''`, `postData = postData || undefined` (for the string
arguments, `x || ''` is the identity), empty header and data maps. -/
def new (url : String) (postData : JSValue) (method : String) : XHR :=
  { xhr := initTransport, method := method, url := url,
    postData := if postData.truthy then postData else .vUndefined,
    userName := .vUndefined, password := .vUndefined,
    headers := [], data := [] }

/-- `XHR.prototype.reset` (source lines 176-181): overwrite method, url and
body; `postData || undefined` stores `undefined` for a falsy body. -/
def reset (s : XHR) (url : String) (postData : JSValue) (method : String) : XHR :=
  { s with method := method, url := url,
           postData := if postData.truthy then postData else .vUndefined }

/-- `XHR.prototype.httpAuth` (source lines 189-193). -/
def httpAuth (s : XHR) (userName password : JSValue) : XHR :=
  { s with userName := userName, password := password }

/-- `XHR.prototype.setTimeout` (source lines 200-203):
`(typeof msec == 'number') && msec > 0 ? msec : 0`. -/
def setTimeout' (s : XHR) (msec : JSValue) : XHR :=
  { s with xhr := { s.xhr with timeout :=
      match msec with
      | .vNum n => if n > 0 then n else 0
      | _ => 0 } }

/-- `XHR.prototype.setData` (source lines 213-220): store under a non-empty
string name unless the value is `undefined`, in which case remove the key. -/
def setData (s : XHR) (name : JSValue) (value : JSValue) : XHR :=
  match name with
  | .vStr n =>
    if n ≠ "" then
      if value ≠ .vUndefined then
        { s with data :=
            if s.data.any (fun p => p.1 = n) then
              s.data.map (fun p => if p.1 = n then (n, value) else p)
            else s.data ++ [(n, value)] }
      else
        { s with data := s.data.filter (fun p => p.1 ≠ n) }
    else s
  | _ => s

/-- `XHR.prototype.setHeader` (source lines 230-237): for a non-empty string
name, store the value when it is a non-empty string, otherwise delete the
header; any other name is a no-op. -/
def setHeader (s : XHR) (name value : JSValue) : XHR :=
  match name with
  | .vStr n =>
    if n ≠ "" then
      match value with
      | .vStr v =>
        if v ≠ "" then { s with headers := setObj s.headers n v }
        else { s with headers := delObj s.headers n }
      | _ => { s with headers := delObj s.headers n }
    else s
  | _ => s

/-- `encodeURIComponent`: percent-encode every character outside the
unreserved set `A-Z a-z 0-9 - _ . ! ~ * ' ( )` as the `%XX` upper-case hex
codes of its UTF-8 bytes (model of the JavaScript builtin). -/
def uriUnreserved (c : Char) : Bool :=
  let n := c.toNat
  (65 ≤ n && n ≤ 90) || (97 ≤ n && n ≤ 122) || (48 ≤ n && n ≤ 57) ||
  n = 45 || n = 95 || n = 46 || n = 33 || n = 126 || n = 42 ||
  n = 39 || n = 40 || n = 41

/-- UTF-8 bytes of a character. -/
def utf8Bytes (c : Char) : List Nat :=
  let n := c.toNat
  if n < 128 then [n]
  else if n < 2048 then [192 + n / 64, 128 + n % 64]
  else if n < 65536 then [224 + n / 4096, 128 + (n / 64) % 64, 128 + n % 64]
  else [240 + n / 262144, 128 + (n / 4096) % 64, 128 + (n / 64) % 64, 128 + n % 64]

/-- Upper-case hexadecimal digit. -/
def hexDigit (n : Nat) : Char :=
  if n < 10 then Char.ofNat (48 + n) else Char.ofNat (55 + n)

/-- `%XX` escape of one byte. -/
def pctByte (b : Nat) : String :=
  "%" ++ String.singleton (hexDigit (b / 16)) ++ String.singleton (hexDigit (b % 16))

/-- Model of the JavaScript `encodeURIComponent` builtin. -/
def encodeURIComponent (s : String) : String :=
  String.join (s.toList.map fun c =>
    if uriUnreserved c then String.singleton c
    else String.join ((utf8Bytes c).map pctByte))

/-- `XHR.prototype.setCookie` (source lines 251-258): append
`name=encodeURIComponent(value)` to the `Cookie` header when both name and
value are non-empty strings. -/
def setCookie (s : XHR) (name value : JSValue) : XHR :=
  match name, value with
  | .vStr n, .vStr v =>
    if n ≠ "" ∧ v ≠ "" then
      match getObj s.headers "Cookie" with
      | some old =>
        { s with headers := setObj s.headers "Cookie" (old ++ "; " ++ n ++ "=" ++ encodeURIComponent v) }
      | none =>
        { s with headers := setObj s.headers "Cookie" (n ++ "=" ++ encodeURIComponent v) }
    else s
  | _, _ => s

/-- The `encoded` array built by `XHR.prototype.setCookies` (source lines
272-276): for each own entry whose value is a non-empty string, in iteration
order, the string `name=encodeURIComponent(value)`.  `none` models a
non-object argument (e.g. the parameter being absent / `undefined`), for
which the `for..in` loop is skipped. -/
def encodedCookies : Option (List (String × JSValue)) → List String
  | none => []
  | some m => m.filterMap fun p =>
      match p.2 with
      | .vStr v => if v ≠ "" then some (p.1 ++ "=" ++ encodeURIComponent v) else none
      | _ => none

/-- `XHR.prototype.setCookies` (source lines 271-282): if any entries were
encoded, assign their `"; "`-join to the `Cookie` header, otherwise delete
the `Cookie` header. -/
def setCookies (s : XHR) (cookies : Option (List (String × JSValue))) : XHR :=
  let encoded := encodedCookies cookies
  if encoded ≠ [] then
    { s with headers := setObj s.headers "Cookie" (String.intercalate "; " encoded) }
  else
    { s with headers := delObj s.headers "Cookie" }

/-- `XHR.prototype.isCompleted` (source lines 527-529):
`readyState == XMLHttpRequest.DONE` (both constants are 4). -/
def isCompleted (s : XHR) : Bool :=
  decide (s.xhr.readyState = 4)

/-- `XHR.prototype.isStatusOK` (source lines 535-537):
`status >= 200 && status < 300`. -/
def isStatusOK (s : XHR) : Bool :=
  decide (200 ≤ s.xhr.status) && decide (s.xhr.status < 300)

/-- `XHR.prototype.isSuccessResponse` (source lines 545-547):
`isStatusOK() && (!xhr.responseType || (xhr.response !== null && xhr.response !== undefined))`.
Note `!xhr.responseType` holds exactly when the response type string is
empty. -/
def isSuccessResponse (s : XHR) : Bool :=
  isStatusOK s &&
    (decide (s.xhr.responseType = "") ||
      (decide (s.xhr.response ≠ .vNull) && decide (s.xhr.response ≠ .vUndefined)))

/-- `XHR.prototype.errorState` (source lines 559-568): connection failure
(`!status`), then HTTP status failure, then body-decode failure, else no
error; returns a message string when `asString`, a numeric code otherwise. -/
def errorState (s : XHR) (asString : Bool) : JSValue :=
  if s.xhr.status = 0 then
    if asString then .vStr "Connection failed" else .vNum ERR_CONNECTION
  else if isStatusOK s = false then
    if asString then .vStr ("HTTP " ++ toString s.xhr.status) else .vNum ERR_HTTPSTATUS
  else if isSuccessResponse s = false then
    if asString then .vStr "Unexpected response body format" else .vNum ERR_BODYTYPE
  else
    if asString then .vStr "No error" else .vNum ERR_NONE

end XHR

/-- A call made on the transport by `XHR.prototype.send`: `xhr.open(...)`,
`xhr.setRequestHeader(...)` or `xhr.send(...)` (`sendBody none` is the
body-less `xhr.send()`). -/
inductive TransportOp where
  | openXhr (method url : String) (async : Bool) (userName password : JSValue)
  | setRequestHeader (name value : String)
  | sendBody (body : Option JSValue)
  deriving DecidableEq

namespace XHR

/-- `XHR.prototype.send` (source lines 496-509).  Throws when the url is
empty; otherwise opens the transport with `this.method || 'POST'` when
`postData || this.postData` is truthy (and sends that body) or with
`this.method || 'GET'` otherwise (and sends no body), setting every stored
header in between.  The calls made on the transport are returned as a trace;
the instance state is returned unchanged, because the source only reads
`this` here. -/
def send (s : XHR) (postData : JSValue) : Except String (XHR × List TransportOp) :=
  if s.url = "" then
    Except.error "The request URL is empty"
  else if postData.truthy || s.postData.truthy then
    Except.ok (s,
      TransportOp.openXhr (if s.method = "" then "POST" else s.method) s.url true s.userName s.password
        :: s.headers.map (fun p => TransportOp.setRequestHeader p.1 p.2)
        ++ [TransportOp.sendBody (some (if postData.truthy then postData else s.postData))])
  else
    Except.ok (s,
      TransportOp.openXhr (if s.method = "" then "GET" else s.method) s.url true s.userName s.password
        :: s.headers.map (fun p => TransportOp.setRequestHeader p.1 p.2)
        ++ [TransportOp.sendBody none])

/-- `XHR.prototype.onChange` (source lines 331-334): assign the
`onreadystatechange` slot to a closure that always invokes the handler. -/
def onChange (s : XHR) (handler : JSValue) : XHR :=
  { s with xhr := { s.xhr with observer := .change handler } }

/-- `XHR.prototype.onReady` (source lines 352-355): assign the
`onreadystatechange` slot to a closure gated on `isCompleted()`. -/
def onReady (s : XHR) (handler : JSValue) : XHR :=
  { s with xhr := { s.xhr with observer := .ready handler } }

/-- `XHR.prototype.onSuccess` (source lines 377-386): assign the
`onreadystatechange` slot to a closure that, at the terminal state, routes to
the success or the error handler according to `isSuccessResponse()`. -/
def onSuccess (s : XHR) (successHandler errorHandler : JSValue) : XHR :=
  { s with xhr := { s.xhr with observer := .success successHandler errorHandler } }

/-- The `onreadystatechange` assignment performed inside the executor of
`XHR.prototype.promise` (source lines 403-414): the slot resolves or rejects
the pending promise at the terminal state. -/
def promiseReg (s : XHR) : XHR :=
  { s with xhr := { s.xhr with observer := .future } }

/-- `XHR.prototype.promise` (source lines 403-414): install the future
observer, then dispatch via `this.send(postData)`. -/
def promiseCall (s : XHR) (postData : JSValue) : Except String (XHR × List TransportOp) :=
  send (promiseReg s) postData

/-- What the installed observer does when the transport fires a
`readystatechange` notification in state `s.xhr`: the handlers invoked (for a
`promise` registration, the resolution performed), in order.  Follows the
closures installed by `onChange` / `onReady` / `onSuccess` / `promise`:
each checks `typeof handler == 'function'` before calling, and all but
`onChange` are gated on `this.isCompleted()`. -/
inductive FireEvent where
  | call (handler : JSValue)
  | resolveP
  | rejectP
  deriving DecidableEq

/-- The observer dispatch itself (see `FireEvent`). -/
def fireReadyStateChange (s : XHR) : List FireEvent :=
  match s.xhr.observer with
  | .unset => []
  | .change h => if h.isFunction then [.call h] else []
  | .ready h => if isCompleted s && h.isFunction then [.call h] else []
  | .success hOk hErr =>
    if isCompleted s then
      if isSuccessResponse s then
        if hOk.isFunction then [.call hOk] else []
      else
        if hErr.isFunction then [.call hErr] else []
    else []
  | .future =>
    if isCompleted s then
      if isSuccessResponse s then [.resolveP] else [.rejectP]
    else []

/-- The result of `XHR.prototype.responseType` (source lines 476-482): the
current response type (getter path) or the updated instance (setter path). -/
inductive RTResult where
  | got (t : String)
  | setTo (s : XHR)
  deriving DecidableEq

/-- `XHR.prototype.responseType` (source lines 476-482): if the value is not
a string, return the current `xhr.responseType`; otherwise store it and
return `this`. -/
def responseType (s : XHR) (value : JSValue) : RTResult :=
  match value with
  | .vStr t => .setTo { s with xhr := { s.xhr with responseType := t } }
  | _ => .got s.xhr.responseType

end XHR

/-! ## Lemmas about the string-map model -/

theorem getObj_setObj_self (l : List (String × String)) (k v : String) :
    getObj (setObj l k v) k = some v := by
  induction l with
  | nil => simp [setObj, getObj]
  | cons hd tl ih =>
    obtain ⟨a, w⟩ := hd
    by_cases hak : a = k
    · simp [setObj, getObj, hak]
    · simp [setObj, getObj, hak, ih]

theorem getObj_setObj_ne (l : List (String × String)) (k v k' : String)
    (h : k' ≠ k) : getObj (setObj l k v) k' = getObj l k' := by
  induction l with
  | nil => simp [setObj, getObj, Ne.symm h]
  | cons hd tl ih =>
    obtain ⟨a, w⟩ := hd
    by_cases hak : a = k
    · simp [setObj, getObj, hak, Ne.symm h]
    · by_cases h2 : a = k'
      · simp [setObj, getObj, hak, h2, h]
      · simp [setObj, getObj, hak, h2, ih]

theorem getObj_delObj_self (l : List (String × String)) (k : String) :
    getObj (delObj l k) k = none := by
  induction l with
  | nil => simp [delObj, getObj]
  | cons hd tl ih =>
    obtain ⟨a, w⟩ := hd
    by_cases hak : a = k
    · simp [delObj, getObj, hak, ih]
    · simp [delObj, getObj, hak, ih]

theorem getObj_delObj_ne (l : List (String × String)) (k k' : String)
    (h : k' ≠ k) : getObj (delObj l k) k' = getObj l k' := by
  induction l with
  | nil => simp [delObj, getObj]
  | cons hd tl ih =>
    obtain ⟨a, w⟩ := hd
    by_cases hak : a = k
    · simp [delObj, getObj, hak, Ne.symm h, ih]
    · by_cases h2 : a = k'
      · simp [delObj, getObj, hak, h2, h]
      · simp [delObj, getObj, hak, h2, ih]

/-! ## Concrete states used by witnesses and counterexamples -/

/-- A freshly constructed instance with a set url, as in `XHR(url)`. -/
def baseXHR : XHR := XHR.new "http://h" .vUndefined ""

/-- An instance whose url was never set (`XHR()`), so it is `""`. -/
def emptyUrlXHR : XHR := XHR.new "" .vUndefined ""

/-! ## C1: success classification -/

/-- The success classification as the spec words it, for comparison with the
code's `XHR.isSuccessResponse`: status 2XX and (responseKind is "text" or the
default, or the decoded response is neither null nor absent). -/
def specIsSuccessResponse (s : XHR) : Bool :=
  XHR.isStatusOK s &&
    (decide (s.xhr.responseType = "") || decide (s.xhr.responseType = "text") ||
      (decide (s.xhr.response ≠ .vNull) && decide (s.xhr.response ≠ .vUndefined)))

/-- A terminal controller: status 200, response type explicitly set to
`"text"`, null decoded response. -/
def c1CexState : XHR :=
  { baseXHR with xhr := { initTransport with
      readyState := 4, status := 200, responseType := "text", response := .vNull } }

/-- C1 counterexample: in this terminal state the claim (and the spec)
classify success, because the responseKind is `"text"`, but the code's
`isSuccessResponse` tests `!xhr.responseType`, which is false for the
non-empty string `"text"`, so it classifies failure. -/
theorem xhrless_c1_cex :
    XHR.isCompleted c1CexState = true ∧
    specIsSuccessResponse c1CexState = true ∧
    XHR.isSuccessResponse c1CexState = false := by
  refine ⟨rfl, rfl, rfl⟩

/-- C1 (amended): for every controller in a terminal state,
`isSuccessResponse` returns true iff the HTTP status is in [200,300) AND (the
responseKind is the default empty string OR the decoded response is neither
null nor absent); in particular, status 200 with responseKind "json" and a
non-null, non-absent decoded response classifies as success, and status 200
with responseKind "json" and a null decoded response classifies as failure. -/
theorem xhrless_c1 (s : XHR) (_hdone : XHR.isCompleted s = true) :
    (XHR.isSuccessResponse s = true ↔
      (200 ≤ s.xhr.status ∧ s.xhr.status < 300) ∧
        (s.xhr.responseType = "" ∨
          (s.xhr.response ≠ JSValue.vNull ∧ s.xhr.response ≠ JSValue.vUndefined))) ∧
    (s.xhr.status = 200 → s.xhr.responseType = "json" →
      s.xhr.response ≠ JSValue.vNull → s.xhr.response ≠ JSValue.vUndefined →
      XHR.isSuccessResponse s = true) ∧
    (s.xhr.status = 200 → s.xhr.responseType = "json" →
      s.xhr.response = JSValue.vNull → XHR.isSuccessResponse s = false) := by
  refine ⟨?_, ?_, ?_⟩
  · simp [XHR.isSuccessResponse, XHR.isStatusOK, Bool.and_eq_true, Bool.or_eq_true,
      decide_eq_true_iff]
  · intro h200 hjson hn hu
    simp [XHR.isSuccessResponse, XHR.isStatusOK, h200, hjson, hn, hu]
  · intro h200 hjson hnull
    simp [XHR.isSuccessResponse, XHR.isStatusOK, h200, hjson, hnull]

/-- A terminal controller with status 200, responseKind "json" and a decoded
object response. -/
def c1WitState : XHR :=
  { baseXHR with xhr := { initTransport with
      readyState := 4, status := 200, responseType := "json", response := .vObj 0 } }

/-- Witness for C1 at a concrete terminal json state. -/
theorem xhrless_c1_witness : XHR.isSuccessResponse c1WitState = true :=
  (xhrless_c1 c1WitState rfl).2.1 rfl rfl (by decide) (by decide)

/-! ## C2: error taxonomy order -/

/-- C2: for every controller in a terminal state, `errorState` checks
conditions in this order: status 0 yields `ERR_CONNECTION` / "Connection
failed" (even if a decoded response exists); a non-zero status outside
[200,300) yields `ERR_HTTPSTATUS` / "HTTP <status>" (in particular status
404, regardless of responseKind); a 2XX status whose success classification
fails yields `ERR_BODYTYPE` / "Unexpected response body format"; otherwise
`ERR_NONE` / "No error". -/
theorem xhrless_c2 (s : XHR) (_hdone : XHR.isCompleted s = true) :
    (s.xhr.status = 0 →
      XHR.errorState s false = .vNum ERR_CONNECTION ∧
      XHR.errorState s true = .vStr "Connection failed") ∧
    (s.xhr.status ≠ 0 → XHR.isStatusOK s = false →
      XHR.errorState s false = .vNum ERR_HTTPSTATUS ∧
      XHR.errorState s true = .vStr ("HTTP " ++ toString s.xhr.status)) ∧
    (XHR.isStatusOK s = true → XHR.isSuccessResponse s = false →
      XHR.errorState s false = .vNum ERR_BODYTYPE ∧
      XHR.errorState s true = .vStr "Unexpected response body format") ∧
    (XHR.isSuccessResponse s = true →
      XHR.errorState s false = .vNum ERR_NONE ∧
      XHR.errorState s true = .vStr "No error") ∧
    (s.xhr.status = 404 → XHR.errorState s false = .vNum ERR_HTTPSTATUS) := by
  refine ⟨?_, ?_, ?_, ?_, ?_⟩
  · intro h0
    simp [XHR.errorState, h0]
  · intro h0 hok
    simp [XHR.errorState, h0, hok]
  · intro hok hsucc
    have hne : s.xhr.status ≠ 0 := by
      simp [XHR.isStatusOK] at hok
      omega
    simp [XHR.errorState, hne, hok, hsucc]
  · intro hsucc
    have hok : XHR.isStatusOK s = true := by
      simp [XHR.isSuccessResponse, Bool.and_eq_true] at hsucc
      exact hsucc.1
    have hne : s.xhr.status ≠ 0 := by
      simp [XHR.isStatusOK] at hok
      omega
    simp [XHR.errorState, hne, hok, hsucc]
  · intro h404
    have hok : XHR.isStatusOK s = false := by
      simp [XHR.isStatusOK, h404]
    simp [XHR.errorState, h404, hok]

/-- A terminal controller with HTTP status 404. -/
def c2WitState : XHR :=
  { baseXHR with xhr := { initTransport with readyState := 4, status := 404 } }

/-- Witness for C2 at a concrete terminal 404 state. -/
theorem xhrless_c2_witness :
    XHR.errorState c2WitState false = .vNum ERR_HTTPSTATUS ∧
    XHR.errorState c2WitState true = .vStr "HTTP 404" :=
  (xhrless_c2 c2WitState rfl).2.1 (by decide) (by decide)

/-! ## C3: empty url fails fast -/

/-- C3: for every descriptor whose url is the empty string, `send` fails
immediately with the error "The request URL is empty"; no transport call is
made and no updated state is produced (the `Except.error` result carries
neither a trace nor a state). -/
theorem xhrless_c3 (s : XHR) (postData : JSValue) (h : s.url = "") :
    XHR.send s postData = Except.error "The request URL is empty" := by
  simp [XHR.send, h]

/-- Witness for C3: a descriptor constructed without a url. -/
theorem xhrless_c3_witness :
    XHR.send emptyUrlXHR JSValue.vUndefined = Except.error "The request URL is empty" :=
  xhrless_c3 emptyUrlXHR JSValue.vUndefined rfl

/-! ## C9: responseType getter/setter -/

/-- A descriptor whose response type is "json". -/
def c9CexState : XHR :=
  { baseXHR with xhr := { initTransport with responseType := "json" } }

/-- C9 counterexample: `responseType` called WITH an argument that is not a
string (here the number 5) does not act as a setter: it returns the current
response type (getter path) and stores nothing, contradicting the claim that
it is a setter whenever called with an argument. -/
theorem xhrless_c9_cex :
    JSValue.vNum 5 ≠ JSValue.vUndefined ∧
    XHR.responseType c9CexState (JSValue.vNum 5) = XHR.RTResult.got "json" := by
  refine ⟨by decide, rfl⟩

/-- C9 (amended): `responseType` acts as a getter (returning the current
response type) when called with no argument or with any non-string argument,
and as a chainable setter (storing the value and returning the descriptor
itself, all other fields unchanged) when called with a string argument. -/
theorem xhrless_c9 (s : XHR) (value : JSValue) (hns : value.isString = false) :
    XHR.responseType s JSValue.vUndefined = XHR.RTResult.got s.xhr.responseType ∧
    XHR.responseType s value = XHR.RTResult.got s.xhr.responseType ∧
    ∀ t : String, XHR.responseType s (JSValue.vStr t) =
      XHR.RTResult.setTo { s with xhr := { s.xhr with responseType := t } } := by
  refine ⟨rfl, ?_, fun t => rfl⟩
  cases value <;> simp_all [XHR.responseType, JSValue.isString]

/-- Witness for C9: a non-string argument at a concrete descriptor. -/
theorem xhrless_c9_witness :
    XHR.responseType baseXHR (JSValue.vBool true) = XHR.RTResult.got "" :=
  (xhrless_c9 baseXHR (JSValue.vBool true) rfl).2.1

/-! ## C5: single observer slot -/

/-- C5: all four registrations write the same single observer slot; in
particular `onReady(h)` followed by `onSuccess(hOk, hErr)` yields exactly the
state produced by `onSuccess(hOk, hErr)` alone, the slot holds the
`onSuccess` routing, and in every state whose slot holds that routing a
`readystatechange` notification never calls the earlier `onReady` handler. -/
theorem xhrless_c5 (s : XHR) (h hOk hErr : JSValue)
    (h1 : h ≠ hOk) (h2 : h ≠ hErr) :
    XHR.onSuccess (XHR.onReady s h) hOk hErr = XHR.onSuccess s hOk hErr ∧
    (XHR.onSuccess (XHR.onReady s h) hOk hErr).xhr.observer = Observer.success hOk hErr ∧
    (XHR.onChange s h).xhr.observer = Observer.change h ∧
    (XHR.onReady s h).xhr.observer = Observer.ready h ∧
    (XHR.promiseReg (XHR.onSuccess s hOk hErr)).xhr.observer = Observer.future ∧
    (∀ s2 : XHR, s2.xhr.observer = Observer.success hOk hErr →
      XHR.FireEvent.call h ∉ XHR.fireReadyStateChange s2) := by
  refine ⟨rfl, rfl, rfl, rfl, rfl, ?_⟩
  intro s2 hobs
  simp only [XHR.fireReadyStateChange, hobs]
  split_ifs <;> simp [h1, h2]

/-- A terminal transport whose observer slot holds an `onSuccess` routing. -/
def c5WitState : XHR :=
  { baseXHR with xhr := { initTransport with
      readyState := 4, status := 200,
      observer := .success (.vFun 1) (.vFun 2) } }

/-- Witness for C5: the superseded `onReady` handler (function 0) is not
called at a concrete terminal state routed by `onSuccess`. -/
theorem xhrless_c5_witness :
    XHR.FireEvent.call (JSValue.vFun 0) ∉ XHR.fireReadyStateChange c5WitState :=
  (xhrless_c5 baseXHR (JSValue.vFun 0) (JSValue.vFun 1) (JSValue.vFun 2)
    (by decide) (by decide)).2.2.2.2.2 c5WitState rfl

/-! ## C7: setHeader semantics -/

/-- The header value the code stores for a given `setHeader` value argument:
the string itself when it is a non-empty string, nothing otherwise. -/
def headerValue (v : JSValue) : Option String :=
  match v with
  | .vStr s => if s ≠ "" then some s else none
  | _ => none

/-- Lookup characterization of `setHeader`: for a string name, the mapping
after `setHeader` holds `headerValue v` under a non-empty `name` and is
unchanged elsewhere (and entirely unchanged for an empty name). -/
theorem setHeader_getObj (s : XHR) (n : String) (v : JSValue) (k : String) :
    getObj (XHR.setHeader s (.vStr n) v).headers k =
      if n ≠ "" ∧ k = n then headerValue v else getObj s.headers k := by
  by_cases hn : n = ""
  · simp [XHR.setHeader, hn]
  · have hdel : ∀ k' : String, getObj (delObj s.headers n) k' =
        if n ≠ "" ∧ k' = n then (none : Option String) else getObj s.headers k' := by
      intro k'
      by_cases hk : k' = n
      · subst hk
        simp [getObj_delObj_self, hn]
      · rw [getObj_delObj_ne _ _ _ hk]
        simp [hk]
    cases v with
    | vStr w =>
      by_cases hw : w = ""
      · subst hw
        simp only [XHR.setHeader, if_pos hn, headerValue]
        simpa using hdel k
      · simp only [XHR.setHeader, if_pos hn, if_pos hw, headerValue]
        by_cases hk : k = n
        · subst hk
          simp [getObj_setObj_self, hn, hw]
        · rw [getObj_setObj_ne _ _ _ _ hk]
          simp [hk]
    | vUndefined => simpa only [XHR.setHeader, if_pos hn, headerValue] using hdel k
    | vNull => simpa only [XHR.setHeader, if_pos hn, headerValue] using hdel k
    | vBool b => simpa only [XHR.setHeader, if_pos hn, headerValue] using hdel k
    | vNum m => simpa only [XHR.setHeader, if_pos hn, headerValue] using hdel k
    | vObj i => simpa only [XHR.setHeader, if_pos hn, headerValue] using hdel k
    | vFun i => simpa only [XHR.setHeader, if_pos hn, headerValue] using hdel k

/-- C7: `setHeader(name, v)` stores `v` under a non-empty string `name`
exactly when `v` is a non-empty string and otherwise removes the binding,
leaving every other key unchanged; `setHeader(name, "")` and
`setHeader(name, undefined)` produce identical states; and a repeated
`setHeader` under the same name is last-write-wins on the header mapping. -/
theorem xhrless_c7 :
    (∀ (s : XHR) (n : String) (v : JSValue) (k : String),
      getObj (XHR.setHeader s (.vStr n) v).headers k =
        if n ≠ "" ∧ k = n then headerValue v else getObj s.headers k) ∧
    (∀ (s : XHR) (n : String),
      XHR.setHeader s (.vStr n) (.vStr "") = XHR.setHeader s (.vStr n) .vUndefined) ∧
    (∀ (s : XHR) (n : String) (v1 v2 : JSValue) (k : String),
      getObj (XHR.setHeader (XHR.setHeader s (.vStr n) v1) (.vStr n) v2).headers k =
        getObj (XHR.setHeader s (.vStr n) v2).headers k) := by
  refine ⟨setHeader_getObj, ?_, ?_⟩
  · intro s n
    simp [XHR.setHeader]
  · intro s n v1 v2 k
    rw [setHeader_getObj, setHeader_getObj, setHeader_getObj]
    by_cases hc : n ≠ "" ∧ k = n <;> simp [hc]

/-! ## C8: setCookies semantics -/

/-- C8: `setCookies` replaces the entire `Cookie` header with the
`"; "`-join of the encoded entries whose values are non-empty strings, in the
mapping's iteration order, leaving all other headers unchanged; with no
encodable entry (in particular an absent or empty mapping) the `Cookie`
header is removed.  Concretely, `setCookies {a:"1", b:"2"}` yields the header
value `"a=1; b=2"`, and `setCookies(undefined)` removes an existing `Cookie`
header. -/
theorem xhrless_c8 :
    (∀ (s : XHR) (m : Option (List (String × JSValue))) (k : String),
      getObj (XHR.setCookies s m).headers k =
        if k = "Cookie" then
          (if XHR.encodedCookies m = [] then none
           else some (String.intercalate "; " (XHR.encodedCookies m)))
        else getObj s.headers k) ∧
    getObj (XHR.setCookies baseXHR
      (some [("a", .vStr "1"), ("b", .vStr "2")])).headers "Cookie" = some "a=1; b=2" ∧
    getObj (XHR.setCookies
      { baseXHR with headers := [("Cookie", "old")] } none).headers "Cookie" = none := by
  refine ⟨?_, rfl, rfl⟩
  intro s m k
  by_cases he : XHR.encodedCookies m = []
  · simp only [XHR.setCookies]
    rw [if_neg (by simp [he])]
    by_cases hk : k = "Cookie"
    · subst hk
      simp [getObj_delObj_self, he]
    · rw [getObj_delObj_ne _ _ _ hk]
      simp [hk]
  · simp only [XHR.setCookies]
    rw [if_pos he]
    by_cases hk : k = "Cookie"
    · subst hk
      simp [getObj_setObj_self, he]
    · rw [getObj_setObj_ne _ _ _ _ hk]
      simp [hk]

/-! ## C4: dispatch trace -/

/-- A descriptor with a stored truthy body. -/
def c4CexState : XHR := XHR.new "u" (.vStr "x") ""

/-- C4 counterexample: the per-dispatch body argument `""` is present but
falsy, and the code selects the body by `postData || this.postData`, so the
stored body `"x"` is sent — not the present per-dispatch body `""` that the
claim's "per-dispatch body if present" selection would send. -/
theorem xhrless_c4_cex :
    XHR.send c4CexState (JSValue.vStr "") =
      Except.ok (c4CexState,
        [TransportOp.openXhr "POST" "u" true JSValue.vUndefined JSValue.vUndefined,
         TransportOp.sendBody (some (JSValue.vStr "x"))]) ∧
    JSValue.vStr "x" ≠ JSValue.vStr "" := by
  refine ⟨rfl, by decide⟩

/-- C4 (amended): for every descriptor with non-empty url, `send` opens the
transport with the stored method if non-empty — else "POST" if the
per-dispatch body or, failing that, the stored body is truthy, else "GET" —
together with the url, async=true and the stored credentials; it then applies
every stored header in order and finally sends the per-dispatch body if
truthy, else the stored body if truthy, else no body. -/
theorem xhrless_c4 (s : XHR) (postData : JSValue) (h : s.url ≠ "") :
    XHR.send s postData =
      Except.ok (s,
        TransportOp.openXhr
            (if s.method ≠ "" then s.method
             else if postData.truthy || s.postData.truthy then "POST" else "GET")
            s.url true s.userName s.password
          :: s.headers.map (fun p => TransportOp.setRequestHeader p.1 p.2)
          ++ [TransportOp.sendBody
              (if postData.truthy then some postData
               else if s.postData.truthy then some s.postData else none)]) := by
  by_cases h1 : postData.truthy <;> by_cases h2 : s.postData.truthy <;>
    by_cases h3 : s.method = "" <;> simp [XHR.send, h, h1, h2, h3]

/-- A fresh descriptor with url "u2" and no stored body. -/
def c4WitState : XHR := XHR.new "u2" .vUndefined ""

/-- Witness for C4 at a concrete dispatch with a truthy body argument. -/
theorem xhrless_c4_witness :
    XHR.send c4WitState (JSValue.vStr "b") =
      Except.ok (c4WitState,
        [TransportOp.openXhr "POST" "u2" true JSValue.vUndefined JSValue.vUndefined,
         TransportOp.sendBody (some (JSValue.vStr "b"))]) :=
  xhrless_c4 c4WitState (JSValue.vStr "b") (by decide)

/-! ## C6: per-dispatch body does not mutate the stored configuration -/

/-- The descriptor after `reset(url1, body1)` on a fresh instance. -/
def c6CexState : XHR := XHR.reset emptyUrlXHR "u1" (JSValue.vStr "b1") ""

/-- C6 counterexample: dispatching with the explicit (but falsy) body
argument `""` after `reset(u1, b1)` sends the stored body `b1`, not the
explicit argument, refuting the claim that an explicit body argument is
always the one sent. -/
theorem xhrless_c6_cex :
    XHR.send c6CexState (JSValue.vStr "") =
      Except.ok (c6CexState,
        [TransportOp.openXhr "POST" "u1" true JSValue.vUndefined JSValue.vUndefined,
         TransportOp.sendBody (some (JSValue.vStr "b1"))]) ∧
    JSValue.vStr "b1" ≠ JSValue.vStr "" := by
  refine ⟨rfl, by decide⟩

/-- C6 (amended): after `reset(url1, body1)`, dispatching with a truthy
explicit body argument sends that argument (with the stored url and method
inference) while the stored body remains the one `reset` stored (a falsy
explicit argument instead falls back to the stored body, see C10); and
`send` never mutates the stored method, url, body, credentials, headers or
user data — any successful dispatch returns the instance state unchanged. -/
theorem xhrless_c6 (s : XHR) (url1 : String) (body1 body2 : JSValue)
    (hurl : url1 ≠ "") (hb2 : body2.truthy = true) :
    XHR.send (XHR.reset s url1 body1 "") body2 =
      Except.ok (XHR.reset s url1 body1 "",
        TransportOp.openXhr "POST" url1 true s.userName s.password
          :: s.headers.map (fun p => TransportOp.setRequestHeader p.1 p.2)
          ++ [TransportOp.sendBody (some body2)]) ∧
    (XHR.reset s url1 body1 "").postData =
      (if body1.truthy then body1 else JSValue.vUndefined) ∧
    (∀ (s2 : XHR) (a : JSValue) (s3 : XHR) (ops : List TransportOp),
      XHR.send s2 a = Except.ok (s3, ops) → s3 = s2) := by
  refine ⟨?_, rfl, ?_⟩
  · simp [XHR.send, XHR.reset, hurl, hb2]
  · intro s2 a s3 ops hok
    by_cases hu : s2.url = ""
    · simp [XHR.send, hu] at hok
    · by_cases ht : a.truthy || s2.postData.truthy <;>
        simp [XHR.send, hu, ht] at hok <;> exact hok.1.symm

/-- Witness for C6 at a concrete reset-then-dispatch round trip. -/
theorem xhrless_c6_witness :
    XHR.send (XHR.reset emptyUrlXHR "u4" (JSValue.vStr "b1") "") (JSValue.vStr "b2") =
      Except.ok (XHR.reset emptyUrlXHR "u4" (JSValue.vStr "b1") "",
        [TransportOp.openXhr "POST" "u4" true JSValue.vUndefined JSValue.vUndefined,
         TransportOp.sendBody (some (JSValue.vStr "b2"))]) :=
  (xhrless_c6 emptyUrlXHR "u4" (JSValue.vStr "b1") (JSValue.vStr "b2")
    (by decide) (by decide)).1

/-! ## C10: body selection is by truthiness -/

/-- C10: the body selection in `send` is by truthiness, not presence: a falsy
per-dispatch body argument behaves exactly as an absent argument; when the
stored body is truthy it is sent instead, and when both are falsy the request
is sent with no body and the method (when unset) defaults to "GET". -/
theorem xhrless_c10 (s : XHR) (postData : JSValue) (hurl : s.url ≠ "")
    (hfalsy : postData.truthy = false) :
    XHR.send s postData = XHR.send s JSValue.vUndefined ∧
    (s.postData.truthy = true →
      XHR.send s postData =
        Except.ok (s,
          TransportOp.openXhr (if s.method = "" then "POST" else s.method)
              s.url true s.userName s.password
            :: s.headers.map (fun p => TransportOp.setRequestHeader p.1 p.2)
            ++ [TransportOp.sendBody (some s.postData)])) ∧
    (s.postData.truthy = false →
      XHR.send s postData =
        Except.ok (s,
          TransportOp.openXhr (if s.method = "" then "GET" else s.method)
              s.url true s.userName s.password
            :: s.headers.map (fun p => TransportOp.setRequestHeader p.1 p.2)
            ++ [TransportOp.sendBody none])) := by
  have hu : JSValue.vUndefined.truthy = false := rfl
  refine ⟨?_, ?_, ?_⟩
  · simp [XHR.send, hfalsy, hu]
  · intro hp
    simp [XHR.send, hurl, hfalsy, hp]
  · intro hp
    simp [XHR.send, hurl, hfalsy, hp]

/-- A fresh descriptor with url "u3" and no stored body. -/
def c10WitState : XHR := XHR.new "u3" .vUndefined ""

/-- Witness for C10: the falsy argument 0 with no stored body dispatches a
GET with no body. -/
theorem xhrless_c10_witness :
    XHR.send c10WitState (JSValue.vNum 0) =
      Except.ok (c10WitState,
        [TransportOp.openXhr "GET" "u3" true JSValue.vUndefined JSValue.vUndefined,
         TransportOp.sendBody none]) :=
  (xhrless_c10 c10WitState (JSValue.vNum 0) (by decide) (by decide)).2.2 rfl
